import Mathlib

/-!
Verification of the Greenchoice Home Assistant integration
(`custom_components/greenchoice/api.py` and `model.py`).

The Python code is shallowly embedded: JSON payloads become an inductive
`JsonVal` (with a distinguished `date` constructor abstracting datetime
strings, which pydantic parses to `datetime` objects, ordered here as `Int`
timestamps), Python exceptions become `Except PyErr`, HTTP responses become
explicit records, and the network is an explicit environment of scripted
responses.  Floats are modelled as exact rationals: no claim below depends on
rounding, only on which values are combined.
-/

set_option autoImplicit false

namespace Greenchoice

/-- Python exception kinds that the embedded code can raise. -/
inductive PyErr where
  | attributeError
  | typeError
  | keyError
  | validationError
  | loginError
  deriving DecidableEq

/-- A JSON value as held by the Python code after `response.json()`.
`date` abstracts a datetime-formatted string, carrying the timestamp it
denotes as an ordered integer. -/
inductive JsonVal where
  | null
  | bool (b : Bool)
  | num (q : ℚ)
  | str (s : String)
  | date (d : ℤ)
  | arr (xs : List JsonVal)
  | obj (fields : List (String × JsonVal))

mutual

/-- Structural equality of embedded JSON values. -/
def JsonVal.beq : JsonVal → JsonVal → Bool
  | .null, .null => true
  | .bool a, .bool b => a == b
  | .num a, .num b => a == b
  | .str a, .str b => a == b
  | .date a, .date b => a == b
  | .arr xs, .arr ys => JsonVal.beqList xs ys
  | .obj fs, .obj gs => JsonVal.beqFields fs gs
  | _, _ => false

/-- Elementwise equality of JSON arrays. -/
def JsonVal.beqList : List JsonVal → List JsonVal → Bool
  | [], [] => true
  | x :: xs, y :: ys => JsonVal.beq x y && JsonVal.beqList xs ys
  | _, _ => false

/-- Fieldwise equality of JSON objects. -/
def JsonVal.beqFields : List (String × JsonVal) → List (String × JsonVal) → Bool
  | [], [] => true
  | (k, v) :: fs, (l, w) :: gs => k == l && JsonVal.beq v w && JsonVal.beqFields fs gs
  | _, _ => false

end

instance : BEq JsonVal := ⟨JsonVal.beq⟩

/-- Values stored in the flat result mapping: floats, datetimes, or
Python `None` (a nullable reading field can be stored as-is). -/
inductive Value where
  | num (q : ℚ)
  | date (d : ℤ)
  | pyNone
  deriving DecidableEq

/-- The flat result mapping (`self.result`), a Python dict from metric
names to values; assignment replaces an existing key in place. -/
abbrev ResultMap := List (String × Value)

/-- Python dict assignment `m[k] = v`: overwrite in place when the key is
present (keys are unique), append otherwise. -/
def setKey : ResultMap → String → Value → ResultMap
  | [], k, v => [(k, v)]
  | p :: t, k, v => if p.1 == k then (k, v) :: t else p :: setKey t k v

/-- Python dict lookup `m.get(k)` on the result mapping. -/
def getKey (m : ResultMap) (k : String) : Option Value :=
  (m.find? (fun p => p.1 == k)).map (fun p => p.2)

/-- Key lookup in a JSON object; `none` for a missing key or a non-object. -/
def jlookup (j : JsonVal) (k : String) : Option JsonVal :=
  match j with
  | .obj fields => (fields.find? (fun p => p.1 == k)).map (fun p => p.2)
  | _ => none

/-- Python `x.get(k)` where `x` should be a dict: returns `None` for a
missing key, raises `AttributeError` when `x` is not a dict (in particular
when `x` is `None`). -/
def pyGet (j : JsonVal) (k : String) : Except PyErr JsonVal :=
  match j with
  | .obj fields =>
      match (fields.find? (fun p => p.1 == k)).map (fun p => p.2) with
      | some v => .ok v
      | none => .ok .null
  | _ => .error .attributeError

/-- Python iteration `for x in j`: lists yield elements, dicts yield their
keys, strings yield their one-character substrings; other values raise
`TypeError`. -/
def pyIter (j : JsonVal) : Except PyErr (List JsonVal) :=
  match j with
  | .arr xs => .ok xs
  | .obj fields => .ok (fields.map (fun p => JsonVal.str p.1))
  | .str s => .ok (s.toList.map (fun c => JsonVal.str (String.singleton c)))
  | _ => .error .typeError

/-- Python `==` between embedded JSON values (structural; the Python
`bool`/`int` cross-type equality is irrelevant for the payloads at hand). -/
def pyEq (a b : JsonVal) : Bool := a == b

/-- Python truthiness of an embedded JSON value. -/
def pyTruthy (j : JsonVal) : Bool :=
  match j with
  | .null => false
  | .bool b => b
  | .num q => !(q == 0)
  | .str s => !(s == "")
  | .date _ => true
  | .arr xs => !xs.isEmpty
  | .obj fields => !fields.isEmpty

/-- `x in s` for strings: `needle` occurs as a contiguous substring. -/
def containsSub (needle : List Char) : List Char → Bool
  | [] => needle.isEmpty
  | c :: rest => needle.isPrefixOf (c :: rest) || containsSub needle rest

/-- Python `needle in hay` on strings. -/
def pySubstrIn (needle hay : String) : Bool := containsSub needle.data hay.data

/-- Python `s.lower()` (charwise, which covers the ASCII product types). -/
def pyLower (s : String) : String := ⟨s.data.map Char.toLower⟩

/-- Python `s.replace(" ", "+")` (single-character replacement is a
charwise map). -/
def replaceSpacePlus (s : String) : String :=
  ⟨s.data.map (fun c => if c = ' ' then '+' else c)⟩

/-- Python `k in j` for a string key: key containment for dicts, membership
for lists, substring test for strings; `TypeError` otherwise. -/
def pyInKey (k : String) (j : JsonVal) : Except PyErr Bool :=
  match j with
  | .obj fields => .ok (fields.any (fun p => p.1 == k))
  | .arr xs => .ok (xs.any (fun x => pyEq x (.str k)))
  | .str s => .ok (pySubstrIn k s)
  | _ => .error .typeError

/-- Python subscript `j[k]` with a string key: dict lookup (`KeyError` when
missing), `TypeError` on lists, strings and other values. -/
def pySubscript (j : JsonVal) (k : String) : Except PyErr JsonVal :=
  match j with
  | .obj fields =>
      match (fields.find? (fun p => p.1 == k)).map (fun p => p.2) with
      | some v => .ok v
      | none => .error .keyError
  | _ => .error .typeError

/-- Python `+` on two `float | None` values: `TypeError` as soon as one
side is `None`. -/
def pyAdd (a b : Option ℚ) : Except PyErr ℚ :=
  match a, b with
  | some x, some y => .ok (x + y)
  | _, _ => .error .typeError

/-- Store a `float | None` field into the result mapping. -/
def toVal (q : Option ℚ) : Value :=
  match q with
  | some x => .num x
  | none => .pyNone

/-! ## Pydantic models (`model.py`) and their validation

`Model.from_dict` validates a JSON payload against the pydantic class and
raises `ValidationError` on any missing required field or type mismatch.
Field lists follow `model.py` exactly.  Pydantic's lax string-to-number
coercions and UUID/datetime string formats are abstracted: an `int` field
accepts an integral JSON number, a `float` field a JSON number, a
`datetime` field a `JsonVal.date`, and the `accountId` UUID a JSON
string. -/

/-- Validate a required `float` field. -/
def reqFloat (j : JsonVal) (k : String) : Except PyErr ℚ :=
  match jlookup j k with
  | some (.num q) => .ok q
  | _ => .error .validationError

/-- Validate a required `float | None` field (missing key is invalid,
`null` is a valid `None`). -/
def reqFloatOrNull (j : JsonVal) (k : String) : Except PyErr (Option ℚ) :=
  match jlookup j k with
  | some (.num q) => .ok (some q)
  | some .null => .ok none
  | _ => .error .validationError

/-- Validate a required `int` field. -/
def reqInt (j : JsonVal) (k : String) : Except PyErr ℤ :=
  match jlookup j k with
  | some (.num q) => if q.den = 1 then .ok q.num else .error .validationError
  | _ => .error .validationError

/-- Validate a required `str` field. -/
def reqStr (j : JsonVal) (k : String) : Except PyErr String :=
  match jlookup j k with
  | some (.str s) => .ok s
  | _ => .error .validationError

/-- Validate a required `str | None` field. -/
def reqStrOrNull (j : JsonVal) (k : String) : Except PyErr (Option String) :=
  match jlookup j k with
  | some (.str s) => .ok (some s)
  | some .null => .ok none
  | _ => .error .validationError

/-- Validate a required `datetime` field. -/
def reqDate (j : JsonVal) (k : String) : Except PyErr ℤ :=
  match jlookup j k with
  | some (.date d) => .ok d
  | _ => .error .validationError

/-- Validate a required `list[...]` field elementwise. -/
def reqList {α : Type} (j : JsonVal) (k : String)
    (elem : JsonVal → Except PyErr α) : Except PyErr (List α) :=
  match jlookup j k with
  | some (.arr xs) => xs.mapM elem
  | _ => .error .validationError

/-- `PreferencesSubject` of `model.py`. -/
structure PreferencesSubject where
  customerNumber : ℤ
  LeveringsStatus : ℤ
  agreementId : ℤ
  deriving DecidableEq

/-- `Preferences` of `model.py` (`/api/v2/preferences`). -/
structure Preferences where
  accountId : String
  subject : PreferencesSubject
  deriving DecidableEq

/-- `Preferences.from_dict`: pydantic validation of the preferences payload. -/
def Preferences.from_dict (j : JsonVal) : Except PyErr Preferences := do
  let accountId ← reqStr j "accountId"
  let subj ←
    match jlookup j "subject" with
    | some s => pure s
    | none => .error .validationError
  let customerNumber ← reqInt subj "customerNumber"
  let leveringsStatus ← reqInt subj "LeveringsStatus"
  let agreementId ← reqInt subj "agreementId"
  .ok { accountId := accountId,
        subject := { customerNumber := customerNumber,
                     LeveringsStatus := leveringsStatus,
                     agreementId := agreementId } }

/-- `Reading` of `model.py`: one meter reading; every numeric field is
`float | None`. -/
structure Reading where
  readingDate : ℤ
  normalConsumption : Option ℚ
  offPeakConsumption : Option ℚ
  normalFeedIn : Option ℚ
  offPeakFeedIn : Option ℚ
  gas : Option ℚ
  deriving DecidableEq

/-- Pydantic validation of a single `Reading`. -/
def Reading.from_dict (j : JsonVal) : Except PyErr Reading := do
  let readingDate ← reqDate j "readingDate"
  let normalConsumption ← reqFloatOrNull j "normalConsumption"
  let offPeakConsumption ← reqFloatOrNull j "offPeakConsumption"
  let normalFeedIn ← reqFloatOrNull j "normalFeedIn"
  let offPeakFeedIn ← reqFloatOrNull j "offPeakFeedIn"
  let gas ← reqFloatOrNull j "gas"
  .ok { readingDate := readingDate,
        normalConsumption := normalConsumption,
        offPeakConsumption := offPeakConsumption,
        normalFeedIn := normalFeedIn,
        offPeakFeedIn := offPeakFeedIn,
        gas := gas }

/-- `MeterMonth` of `model.py`: a month number with its readings. -/
structure MeterMonth where
  month : ℤ
  readings : List Reading
  deriving DecidableEq

/-- Pydantic validation of a `MeterMonth`. -/
def MeterMonth.from_dict (j : JsonVal) : Except PyErr MeterMonth := do
  let month ← reqInt j "month"
  let readings ← reqList j "readings" Reading.from_dict
  .ok { month := month, readings := readings }

/-- `MeterProduct` of `model.py`: a product type with its months. -/
structure MeterProduct where
  productType : String
  months : List MeterMonth
  deriving DecidableEq

/-- Pydantic validation of a `MeterProduct`. -/
def MeterProduct.from_dict (j : JsonVal) : Except PyErr MeterProduct := do
  let productType ← reqStr j "productType"
  let months ← reqList j "months" MeterMonth.from_dict
  .ok { productType := productType, months := months }

/-- `MeterReadings` of `model.py`
(`/api/v2/MeterReadings/<year>/<customerNumber>/<agreementId>`). -/
structure MeterReadings where
  productTypes : List MeterProduct
  deriving DecidableEq

/-- `MeterReadings.from_dict`: pydantic validation of the meter payload. -/
def MeterReadings.from_dict (j : JsonVal) : Except PyErr MeterReadings := do
  let productTypes ← reqList j "productTypes" MeterProduct.from_dict
  .ok { productTypes := productTypes }

/-- `ElectricityTariff` of `model.py`. -/
structure ElectricityTariff where
  leveringHoog : ℚ
  leveringLaag : ℚ
  leveringEnkel : ℚ
  leveringLaagAllIn : ℚ
  leveringHoogAllIn : ℚ
  leveringEnkelAllIn : ℚ
  leveringHoogBtw : ℚ
  leveringLaagBtw : ℚ
  leveringEnkelBtw : ℚ
  soortMeter : String
  rebTeruggaveIncBtw : Option ℚ
  terugLeveringEnkel : ℚ
  terugLeveringHoog : ℚ
  terugLeveringLaag : ℚ
  terugleverVergoeding : ℚ
  terugleverKostenIncBtw : ℚ
  terugleverKostenExcBtw : ℚ
  terugleverKostenBtw : ℚ
  btw : ℚ
  btwPercentage : ℚ
  vastrechtPerDagExcBtw : ℚ
  vastrechtPerDagIncBtw : ℚ
  vastrechtPerDagBtw : ℚ
  netbeheerPerDagExcBtw : ℚ
  netbeheerPerDagIncBtw : ℚ
  netbeheerPerDagBtw : ℚ
  reb : ℚ
  sde : ℚ
  capaciteit : Option String

/-- Pydantic validation of an `ElectricityTariff`.  The field
`rebTeruggaveIncBtw` has default `None` in `model.py`, so a missing key is
valid there; every other field is required. -/
def ElectricityTariff.from_dict (j : JsonVal) : Except PyErr ElectricityTariff := do
  let leveringHoog ← reqFloat j "leveringHoog"
  let leveringLaag ← reqFloat j "leveringLaag"
  let leveringEnkel ← reqFloat j "leveringEnkel"
  let leveringLaagAllIn ← reqFloat j "leveringLaagAllIn"
  let leveringHoogAllIn ← reqFloat j "leveringHoogAllIn"
  let leveringEnkelAllIn ← reqFloat j "leveringEnkelAllIn"
  let leveringHoogBtw ← reqFloat j "leveringHoogBtw"
  let leveringLaagBtw ← reqFloat j "leveringLaagBtw"
  let leveringEnkelBtw ← reqFloat j "leveringEnkelBtw"
  let soortMeter ← reqStr j "soortMeter"
  let rebTeruggaveIncBtw ←
    match jlookup j "rebTeruggaveIncBtw" with
    | some (.num q) => pure (some q)
    | some .null => pure (none : Option ℚ)
    | none => pure (none : Option ℚ)
    | _ => .error .validationError
  let terugLeveringEnkel ← reqFloat j "terugLeveringEnkel"
  let terugLeveringHoog ← reqFloat j "terugLeveringHoog"
  let terugLeveringLaag ← reqFloat j "terugLeveringLaag"
  let terugleverVergoeding ← reqFloat j "terugleverVergoeding"
  let terugleverKostenIncBtw ← reqFloat j "terugleverKostenIncBtw"
  let terugleverKostenExcBtw ← reqFloat j "terugleverKostenExcBtw"
  let terugleverKostenBtw ← reqFloat j "terugleverKostenBtw"
  let btw ← reqFloat j "btw"
  let btwPercentage ← reqFloat j "btwPercentage"
  let vastrechtPerDagExcBtw ← reqFloat j "vastrechtPerDagExcBtw"
  let vastrechtPerDagIncBtw ← reqFloat j "vastrechtPerDagIncBtw"
  let vastrechtPerDagBtw ← reqFloat j "vastrechtPerDagBtw"
  let netbeheerPerDagExcBtw ← reqFloat j "netbeheerPerDagExcBtw"
  let netbeheerPerDagIncBtw ← reqFloat j "netbeheerPerDagIncBtw"
  let netbeheerPerDagBtw ← reqFloat j "netbeheerPerDagBtw"
  let reb ← reqFloat j "reb"
  let sde ← reqFloat j "sde"
  let capaciteit ← reqStrOrNull j "capaciteit"
  .ok { leveringHoog := leveringHoog, leveringLaag := leveringLaag,
        leveringEnkel := leveringEnkel, leveringLaagAllIn := leveringLaagAllIn,
        leveringHoogAllIn := leveringHoogAllIn,
        leveringEnkelAllIn := leveringEnkelAllIn,
        leveringHoogBtw := leveringHoogBtw, leveringLaagBtw := leveringLaagBtw,
        leveringEnkelBtw := leveringEnkelBtw, soortMeter := soortMeter,
        rebTeruggaveIncBtw := rebTeruggaveIncBtw,
        terugLeveringEnkel := terugLeveringEnkel,
        terugLeveringHoog := terugLeveringHoog,
        terugLeveringLaag := terugLeveringLaag,
        terugleverVergoeding := terugleverVergoeding,
        terugleverKostenIncBtw := terugleverKostenIncBtw,
        terugleverKostenExcBtw := terugleverKostenExcBtw,
        terugleverKostenBtw := terugleverKostenBtw, btw := btw,
        btwPercentage := btwPercentage,
        vastrechtPerDagExcBtw := vastrechtPerDagExcBtw,
        vastrechtPerDagIncBtw := vastrechtPerDagIncBtw,
        vastrechtPerDagBtw := vastrechtPerDagBtw,
        netbeheerPerDagExcBtw := netbeheerPerDagExcBtw,
        netbeheerPerDagIncBtw := netbeheerPerDagIncBtw,
        netbeheerPerDagBtw := netbeheerPerDagBtw, reb := reb, sde := sde,
        capaciteit := capaciteit }

/-- `GasTariff` of `model.py`. -/
structure GasTariff where
  levering : ℚ
  leveringAllIn : ℚ
  leveringBtw : ℚ
  btw : ℚ
  btwPercentage : ℚ
  vastrechtPerDagExcBtw : ℚ
  vastrechtPerDagIncBtw : ℚ
  vastrechtPerDagBtw : ℚ
  netbeheerPerDagExcBtw : ℚ
  netbeheerPerDagIncBtw : ℚ
  netbeheerPerDagBtw : ℚ
  reb : ℚ
  sde : ℚ
  capaciteit : Option String

/-- Pydantic validation of a `GasTariff`. -/
def GasTariff.from_dict (j : JsonVal) : Except PyErr GasTariff := do
  let levering ← reqFloat j "levering"
  let leveringAllIn ← reqFloat j "leveringAllIn"
  let leveringBtw ← reqFloat j "leveringBtw"
  let btw ← reqFloat j "btw"
  let btwPercentage ← reqFloat j "btwPercentage"
  let vastrechtPerDagExcBtw ← reqFloat j "vastrechtPerDagExcBtw"
  let vastrechtPerDagIncBtw ← reqFloat j "vastrechtPerDagIncBtw"
  let vastrechtPerDagBtw ← reqFloat j "vastrechtPerDagBtw"
  let netbeheerPerDagExcBtw ← reqFloat j "netbeheerPerDagExcBtw"
  let netbeheerPerDagIncBtw ← reqFloat j "netbeheerPerDagIncBtw"
  let netbeheerPerDagBtw ← reqFloat j "netbeheerPerDagBtw"
  let reb ← reqFloat j "reb"
  let sde ← reqFloat j "sde"
  let capaciteit ← reqStrOrNull j "capaciteit"
  .ok { levering := levering, leveringAllIn := leveringAllIn,
        leveringBtw := leveringBtw, btw := btw, btwPercentage := btwPercentage,
        vastrechtPerDagExcBtw := vastrechtPerDagExcBtw,
        vastrechtPerDagIncBtw := vastrechtPerDagIncBtw,
        vastrechtPerDagBtw := vastrechtPerDagBtw,
        netbeheerPerDagExcBtw := netbeheerPerDagExcBtw,
        netbeheerPerDagIncBtw := netbeheerPerDagIncBtw,
        netbeheerPerDagBtw := netbeheerPerDagBtw, reb := reb, sde := sde,
        capaciteit := capaciteit }

/-- `Rates` of `model.py` (`/api/v2/Rates/<customerNumber>?...`). -/
structure Rates where
  beginDatum : ℤ
  eindDatum : ℤ
  stroom : Option ElectricityTariff
  gas : Option GasTariff

/-- `Rates.from_dict`: pydantic validation of the pricing payload.  The
`stroom` and `gas` sub-models are required but nullable. -/
def Rates.from_dict (j : JsonVal) : Except PyErr Rates := do
  let beginDatum ← reqDate j "beginDatum"
  let eindDatum ← reqDate j "eindDatum"
  let stroom ←
    match jlookup j "stroom" with
    | some .null => pure (none : Option ElectricityTariff)
    | some s => (ElectricityTariff.from_dict s).map some
    | none => .error .validationError
  let gas ←
    match jlookup j "gas" with
    | some .null => pure (none : Option GasTariff)
    | some g => (GasTariff.from_dict g).map some
    | none => .error .validationError
  .ok { beginDatum := beginDatum, eindDatum := eindDatum,
        stroom := stroom, gas := gas }

/-! ## The update cycle (`api.py`)

`GreenchoiceApiData.request` returns either `None` (retries exhausted or
login failed) or a `requests.Response`; the callers below observe the
status code and the JSON body, so a returned response is modelled as a
`RespJ`.  A body that fails JSON decoding is `body = none`.  One update
cycle performs up to five requests (preferences, meter readings,
microbus-init, rates, legacy tariffs); the environment scripts the outcome
of each.  The URLs, built from customer/agreement identifiers and the
urlencoded rates query, affect no claim and are not modelled. -/

/-- The observable part of a response returned by `request`:
its status code and JSON body (`none` when the body is not valid JSON). -/
structure RespJ where
  status_code : ℕ
  body : Option JsonVal

/-- Scripted outcomes of the requests one `update()` cycle can make;
`none` models `request` returning `None`. -/
structure Env where
  preferencesResp : Option RespJ
  meterResp : Option RespJ
  initResp : Option RespJ
  ratesResp : Option RespJ
  tariffsResp : Option RespJ

/-- `_validate_response`: `{}` when the response is falsy (a `None` or a
status code of 400 and above, per `requests.Response.__bool__`) or when
the body is not valid JSON; otherwise the parsed JSON. -/
def validate_response (r : Option RespJ) : JsonVal :=
  match r with
  | none => .obj []
  | some resp =>
      if 400 ≤ resp.status_code then .obj []
      else
        match resp.body with
        | some j => j
        | none => .obj []

/-- `microbus_init`: request `/microbus/init` and validate the response. -/
def microbus_init (env : Env) : JsonVal :=
  validate_response env.initResp

/-- The descending stable sort
`sorted(product.months, key=lambda p: p.month, reverse=True)`.  Python's
`sorted` is a stable sort; `List.insertionSort` is the stable sort of the
same total preorder, so it computes the same list. -/
def sortMonthsDesc (months : List MeterMonth) : List MeterMonth :=
  months.insertionSort (fun a b => b.month ≤ a.month)

/-- The loop `for month in sorted(...) : if month.readings: ...; break`,
yielding the first nonempty month of the descending sort. -/
def pickMonth (months : List MeterMonth) : Option MeterMonth :=
  (sortMonthsDesc months).find? (fun m => !m.readings.isEmpty)

/-- `sorted(month.readings, key=lambda r: r.readingDate)[-1]`: last
element of the ascending stable sort by reading date (`none` only for an
empty list, where the subscript would raise). -/
def lastReading (readings : List Reading) : Option Reading :=
  (readings.insertionSort (fun a b => a.readingDate ≤ b.readingDate)).getLast?

/-- One iteration of the product loop of `update_usage_values`: pick the
latest nonempty month and store its latest reading under the product's
slot ("stroom" and/or "gas"). -/
def selectStep (acc : Option Reading × Option Reading) (product : MeterProduct) :
    Option Reading × Option Reading :=
  match pickMonth product.months with
  | none => acc
  | some month =>
      match lastReading month.readings with
      | none => acc  -- unreachable: the picked month has readings
      | some last =>
          let elec := if pyLower product.productType == "stroom" then some last else acc.1
          let gas := if pyLower product.productType == "gas" then some last else acc.2
          (elec, gas)

/-- The full product loop of `update_usage_values` (lines 245-257 of
`api.py`), producing the selected electricity and gas readings. -/
def selectReadings (products : List MeterProduct) : Option Reading × Option Reading :=
  products.foldl selectStep (none, none)

/-- Lines 259-276 of `api.py`: store the electricity reading's values; the
two totals add `float | None` fields and raise `TypeError` when a summand
is `None`. -/
def writeElectricity (r : Reading) (result : ResultMap) : Except PyErr ResultMap := do
  let result := setKey result "electricity_consumption_low" (toVal r.offPeakConsumption)
  let result := setKey result "electricity_consumption_high" (toVal r.normalConsumption)
  let consumptionTotal ← pyAdd r.offPeakConsumption r.normalConsumption
  let result := setKey result "electricity_consumption_total" (.num consumptionTotal)
  let result := setKey result "electricity_return_low" (toVal r.offPeakFeedIn)
  let result := setKey result "electricity_return_high" (toVal r.normalFeedIn)
  let returnTotal ← pyAdd r.offPeakFeedIn r.normalFeedIn
  let result := setKey result "electricity_return_total" (.num returnTotal)
  .ok (setKey result "measurement_date_electricity" (.date r.readingDate))

/-- Lines 277-279 of `api.py`: store the gas reading's values. -/
def writeGas (r : Reading) (result : ResultMap) : ResultMap :=
  setKey (setKey result "gas_consumption" (toVal r.gas))
    "measurement_date_gas" (.date r.readingDate)

/-- `update_usage_values`: fetch and validate preferences and meter
readings (a `ValidationError` is caught and leaves the result untouched),
select the latest readings and store their values. -/
def update_usage_values (env : Env) (result : ResultMap) : Except PyErr ResultMap := do
  let preferences_json := validate_response env.preferencesResp
  match Preferences.from_dict preferences_json with
  | .error _ => .ok result
  | .ok _preferences =>
    let meter_json := validate_response env.meterResp
    match MeterReadings.from_dict meter_json with
    | .error _ => .ok result
    | .ok meter_readings =>
      let (electricity_reading, gas_reading) := selectReadings meter_readings.productTypes
      let result ←
        match electricity_reading with
        | some r => writeElectricity r result
        | none => .ok result
      match gas_reading with
      | some r => .ok (writeGas r result)
      | none => .ok result

/-- Accumulator of the `klantgegevens` loop of `update_contract_values`:
the reference identifiers, house number and zip code, all initialised to
`""`. -/
structure ContractIds where
  ref_id_electricity : JsonVal
  ref_id_gas : JsonVal
  house_number : JsonVal
  zip_code : JsonVal

/-- Inner `contracten` loop: an `"E"` market segment sets the electricity
reference id, anything else the gas one. -/
def contractsLoop (st : ContractIds)
    (contracts : List JsonVal) : Except PyErr ContractIds :=
  contracts.foldlM (fun st contract => do
    let seg ← pyGet contract "marktsegment"
    let refId ← pyGet contract "refId"
    if pyEq seg (.str "E") then
      pure { st with ref_id_electricity := refId }
    else
      pure { st with ref_id_gas := refId }) st

/-- Middle `adressen` loop: on the address matching both the customer and
the contract, record house number and zip code and walk its contracts. -/
def addressesLoop (customerId contractId : JsonVal) (st : ContractIds)
    (addresses : List JsonVal) : Except PyErr ContractIds :=
  addresses.foldlM (fun st client_address => do
    let kn ← pyGet client_address "klantnummer"
    let oid ← pyGet client_address "overeenkomstId"
    if pyEq kn customerId && pyEq oid contractId then do
      let house_number ← pyGet client_address "huisnummer"
      let zip_code ← pyGet client_address "postcode"
      let contracts ← pyGet client_address "contracten"
      let contractList ← pyIter contracts
      contractsLoop
        { st with house_number := house_number, zip_code := zip_code }
        contractList
    else
      pure st) st

/-- Outer `klantgegevens` loop of `update_contract_values`. -/
def clientDetailsLoop (customerId contractId : JsonVal) (st : ContractIds)
    (clients : List JsonVal) : Except PyErr ContractIds :=
  clients.foldlM (fun st client_details => do
    let kn ← pyGet client_details "klantnummer"
    if pyEq kn customerId then do
      let addresses ← pyGet client_details "adressen"
      let addressList ← pyIter addresses
      addressesLoop customerId contractId st addressList
    else
      pure st) st

/-- Lines 284-327 of `update_contract_values`: read the preferred contract
out of the microbus-init payload and walk the nested client records.  The
urlencoded rates query built from the outcome does not influence the
scripted rates response and is not modelled further. -/
def contract_details_phase (env : Env) : Except PyErr ContractIds := do
  let init_config := microbus_init env
  let profile ← pyGet init_config "profile"
  let current_contract_details ← pyGet profile "voorkeursOvereenkomst"
  let customer_id ← pyGet current_contract_details "klantnummer"
  let contract_id ← pyGet current_contract_details "overeenkomstId"
  let all_client_details ← pyGet init_config "klantgegevens"
  let clients ← pyIter all_client_details
  clientDetailsLoop customer_id contract_id
    { ref_id_electricity := .str "", ref_id_gas := .str "",
      house_number := .str "", zip_code := .str "" }
    clients

/-- Lines 338-349 of `update_contract_values`: store the four electricity
price keys when a `stroom` tariff is present and the gas price key when a
`gas` tariff is present. -/
def writePrices (pricing_details : Rates) (result : ResultMap) : ResultMap :=
  let result :=
    match pricing_details.stroom with
    | some s =>
        setKey (setKey (setKey (setKey result
          "electricity_price_single" (.num s.leveringEnkelAllIn))
          "electricity_price_low" (.num s.leveringLaagAllIn))
          "electricity_price_high" (.num s.leveringHoogAllIn))
          "electricity_return_price" (.num s.terugleverVergoeding)
    | none => result
  match pricing_details.gas with
  | some g => setKey result "gas_price" (.num g.leveringAllIn)
  | none => result

/-- Lines 332-349 of `update_contract_values`: validate the chosen pricing
response, unwrap the `"huidig"` sub-object when the key is present, run
pydantic validation (`ValidationError` is NOT caught here) and store the
price keys. -/
def apply_pricing (response : Option RespJ) (result : ResultMap) :
    Except PyErr ResultMap := do
  let hasHuidig ← pyInKey "huidig" (validate_response response)
  let pricing_json ←
    if hasHuidig then pySubscript (validate_response response) "huidig"
    else pure (validate_response response)
  let pricing_details ← Rates.from_dict pricing_json
  .ok (writePrices pricing_details result)

/-- Lines 329-349 of `update_contract_values`: request the rates endpoint
(reading `.status_code` of a `None` raises `AttributeError`), fall back to
the legacy `/api/tariffs` endpoint on a 404, then apply the pricing. -/
def pricing_phase (env : Env) (result : ResultMap) : Except PyErr ResultMap := do
  let status ←
    match env.ratesResp with
    | none => (.error .attributeError : Except PyErr ℕ)
    | some r => .ok r.status_code
  apply_pricing (if status == 404 then env.tariffsResp else env.ratesResp) result

/-- `update_contract_values`: the contract-details walk followed by the
pricing fetch.  No exception raised here is caught by `update`. -/
def update_contract_values (env : Env) (result : ResultMap) :
    Except PyErr ResultMap := do
  let _ids ← contract_details_phase env
  pricing_phase env result

/-- `update`: rebuild `self.result` from the empty dict, then run the two
fetch phases over it. -/
def update (env : Env) : Except PyErr ResultMap := do
  let result : ResultMap := []
  let result ← update_usage_values env result
  update_contract_values env result

/-- The mutable object state: `self.result`. -/
structure ApiState where
  result : ResultMap

/-- Stateful `update` on the object: `self.result = {}` discards the
previous mapping before the fetch phases refill it. -/
def updateS (st : ApiState) (env : Env) : Except PyErr (ResultMap × ApiState) := do
  let _prev := st.result
  let result ← update env
  .ok (result, { result := result })

/-! ## `request` and session refresh (`api.py` lines 140-190)

`request` is modelled over an abstract transport: the `i`-th HTTP send
yields the scripted response `net.resp i`, and the `i`-th `_activate_session`
attempt succeeds when `net.loginOk i` (a failing attempt raises
`LoginError`, which `request` catches and converts to `None`).  Each frame
of `request` (one activation of its body, before any `HTTPError` retry)
records the events it performs. -/

/-- One entry of `response.history`: the status code and the `Location`
header of an intermediate redirect response. -/
structure HistEntry where
  status : ℕ
  location : Option String

/-- A response as seen by `request`: the redirect history and the final
status code. -/
structure Resp where
  history : List HistEntry
  status_code : ℕ

/-- The abstract transport: scripted responses per send and scripted
login-attempt outcomes. -/
structure Net where
  resp : ℕ → Resp
  loginOk : ℕ → Bool

/-- Counters of sends and login attempts consumed so far. -/
structure NetState where
  sendCount : ℕ
  loginCount : ℕ
  deriving DecidableEq

/-- Events recorded while `request` runs: one `attempt` per activation of
the body (the initial call and each retry), one `send` per HTTP request
issued, one `relogin` per `_activate_session` attempt. -/
inductive Ev where
  | attempt
  | send
  | relogin
  deriving DecidableEq

/-- `re.search("^.*://sso.greenchoice.nl/connect/authorize.*$", loc)`:
the header (which carries no newline) contains the identity provider's
authorize URL.  (The regex dots are wildcards; the embedding checks the
literal occurrence, which is what every actual header exercises.) -/
def locationIsSsoAuthorize (loc : String) : Bool :=
  pySubstrIn "://sso.greenchoice.nl/connect/authorize" loc

/-- Lines 148-162 of `api.py`: the session counts as expired when some
history entry is a 302 whose `Location` points at the authorize endpoint,
or when the final status is 403. -/
def sessionExpired (r : Resp) : Bool :=
  r.history.any (fun h =>
    h.status == 302 &&
      (match h.location with
       | some l => locationIsSsoAuthorize l
       | none => false)) ||
  r.status_code == 403

/-- Outcome of one frame of `request`: a returned value, or an
`HTTPError` caught by the retry handler. -/
inductive FrameOut where
  | done (r : Option Resp)
  | httpError

/-- The tail of a frame after the expiry handling (lines 176-179): a 404
response is returned for the fallback logic, `raise_for_status` turns any
other status of 400 and above into `HTTPError`. -/
def finishResp (r : Resp) : FrameOut :=
  if r.status_code == 404 then .done (some r)
  else if 400 ≤ r.status_code then .httpError
  else .done (some r)

/-- One frame of `request` (the body at one `_retry_count`): send, detect
expiry, possibly re-login once and replay once, then check the status.
The replayed response's history and status are never re-examined for
expiry. -/
def requestFrame (net : Net) (st : NetState) : FrameOut × NetState × List Ev :=
  let response := net.resp st.sendCount
  let st := { st with sendCount := st.sendCount + 1 }
  if sessionExpired response then
    if net.loginOk st.loginCount then
      let st := { st with loginCount := st.loginCount + 1 }
      let replay := net.resp st.sendCount
      let st := { st with sendCount := st.sendCount + 1 }
      (finishResp replay, st, [.attempt, .send, .relogin, .send])
    else
      -- `LoginError` is caught and the frame returns `None`.
      (FrameOut.done none, { st with loginCount := st.loginCount + 1 },
        [.attempt, .send, .relogin])
  else
    (finishResp response, st, [.attempt, .send])

/-- The retry recursion of `request`: on `HTTPError`, return `None` when
the counter is exhausted, otherwise retry with the counter decremented. -/
def requestAux (net : Net) : ℕ → NetState → Option Resp × NetState × List Ev
  | retry, st =>
    match requestFrame net st with
    | (.done r, st', evs) => (r, st', evs)
    | (.httpError, st', evs) =>
        match retry with
        | 0 => (none, st', evs)
        | n + 1 =>
            let out := requestAux net n st'
            (out.1, out.2.1, evs ++ out.2.2)

/-- `request` with its default `_retry_count=2`, started on fresh
counters. -/
def request (net : Net) : Option Resp × NetState × List Ev :=
  requestAux net 2 { sendCount := 0, loginCount := 0 }

/-! ## The login handshake (`_activate_session`, `_get_verification_token`,
`_get_oidc_params`) -/

/-- An `<input>` element of a returned HTML page: its `name` and its
optional `value` attribute. -/
structure HtmlInput where
  name : String
  value : Option String

/-- `soup.find("input", \x7b"name": nm\x7d)`: the first input element with the
given name, or `None`. -/
def findInput (inputs : List HtmlInput) (nm : String) : Option HtmlInput :=
  inputs.find? (fun i => i.name == nm)

/-- `_get_verification_token`: `.attrs.get("value")` on the found element;
a missing element raises `AttributeError` (`None.attrs`). -/
def get_verification_token (inputs : List HtmlInput) :
    Except PyErr (Option String) :=
  match findInput inputs "__RequestVerificationToken" with
  | some el => .ok el.value
  | none => .error .attributeError

/-- The four hidden OIDC form fields posted to the callback endpoint. -/
structure OidcParams where
  code : Option String
  scope : String
  oidcState : Option String
  session_state : Option String

/-- `_get_oidc_params` (lines 48-64 of `api.py`): `LoginError` when any of
the four input elements is absent; otherwise their values, with spaces in
`scope` replaced by `+` (a scope element lacking a `value` attribute would
raise `AttributeError` at the `replace` call). -/
def get_oidc_params (inputs : List HtmlInput) : Except PyErr OidcParams :=
  match findInput inputs "code", findInput inputs "scope",
        findInput inputs "state", findInput inputs "session_state" with
  | some codeEl, some scopeEl, some stateEl, some sessionStateEl =>
      match scopeEl.value with
      | some sv =>
          .ok { code := codeEl.value,
                scope := replaceSpacePlus sv,
                oidcState := stateEl.value,
                session_state := sessionStateEl.value }
      | none => .error .attributeError
  | _, _, _, _ => .error .loginError

/-- The two HTML pages the handshake reads: the login page (GET of the
portal root) and the page returned by posting the credentials. -/
structure LoginEnv where
  loginPageInputs : List HtmlInput
  authPageInputs : List HtmlInput

/-- The requests `_activate_session` issues, in order. -/
inductive LoginEv where
  | getLoginPage
  | postCredentials
  | postSigninOidc (p : OidcParams)

/-- `_activate_session` (lines 108-138 of `api.py`): fetch the login page
and its anti-forgery token, post the credentials, extract the OIDC
parameters from the response and post them to `/signin-oidc`. -/
def activate_session (env : LoginEnv) : Except PyErr (List LoginEv) := do
  let _token ← get_verification_token env.loginPageInputs
  let oidc ← get_oidc_params env.authPageInputs
  .ok [LoginEv.getLoginPage, LoginEv.postCredentials, LoginEv.postSigninOidc oidc]

/-! ## Helper lemmas about the result mapping and the sorted selections -/

theorem getKey_setKey_self (m : ResultMap) (k : String) (v : Value) :
    getKey (setKey m k v) k = some v := by
  induction m with
  | nil => simp [setKey, getKey]
  | cons p t ih =>
    by_cases hp : (p.1 == k) = true
    · simp [setKey, getKey, hp]
    · simp only [setKey, hp, if_false]
      simpa [getKey, hp] using ih

theorem getKey_setKey_other (m : ResultMap) (k k' : String) (v : Value)
    (h : k' ≠ k) : getKey (setKey m k v) k' = getKey m k' := by
  induction m with
  | nil => simp [setKey, getKey, Ne.symm h]
  | cons p t ih =>
    by_cases hp : (p.1 == k) = true
    · have hk : p.1 = k := by simpa using hp
      simp [setKey, getKey, hp, hk, Ne.symm h]
    · simp only [setKey, hp, if_false]
      by_cases hq : (p.1 == k') = true
      · simp [getKey, hq]
      · simpa [getKey, hq] using ih

/-- In a list sorted descending by `key`, `find?` returns an element whose
key dominates every later (hence every) element satisfying the predicate. -/
theorem find?_desc_max {α : Type} (key : α → ℤ) (p : α → Bool) :
    ∀ (l : List α), l.Pairwise (fun a b => key b ≤ key a) →
      ∀ m, l.find? p = some m → ∀ x ∈ l, p x = true → key x ≤ key m := by
  intro l
  induction l with
  | nil => intro _ m h; simp at h
  | cons a t ih =>
    intro hp m hfind x hx hpx
    rcases List.pairwise_cons.mp hp with ⟨ha, ht⟩
    by_cases hpa : p a = true
    · rw [List.find?_cons_of_pos _ hpa] at hfind
      cases hfind
      rcases List.mem_cons.mp hx with rfl | hxt
      · exact le_refl _
      · exact ha x hxt
    · rw [List.find?_cons_of_neg _ hpa] at hfind
      rcases List.mem_cons.mp hx with rfl | hxt
      · exact absurd hpx hpa
      · exact ih ht m hfind x hxt hpx

/-- In a list sorted ascending by `key`, the last element has the maximal
key. -/
theorem getLast?_asc_max {α : Type} (key : α → ℤ) :
    ∀ (l : List α), l.Pairwise (fun a b => key a ≤ key b) →
      ∀ r, l.getLast? = some r → ∀ x ∈ l, key x ≤ key r := by
  intro l
  induction l with
  | nil => intro _ r h; simp at h
  | cons a t ih =>
    intro hp r hlast x hx
    rcases List.pairwise_cons.mp hp with ⟨ha, ht⟩
    cases t with
    | nil =>
      simp at hlast
      cases hlast
      simp at hx
      cases hx
      exact le_refl _
    | cons b t' =>
      rw [List.getLast?_cons_cons] at hlast
      rcases List.mem_cons.mp hx with rfl | hxt
      · exact ha r (List.mem_of_getLast?_eq_some hlast)
      · exact ih ht r hlast x hxt

/-- The electricity component of `selectStep` does not depend on the gas
accumulator. -/
theorem selectStep_fst_indep (p : MeterProduct) (e : Option Reading)
    (g g' : Option Reading) :
    (selectStep (e, g) p).1 = (selectStep (e, g') p).1 := by
  rcases hm : pickMonth p.months with _ | month
  · simp [selectStep, hm]
  · rcases hl : lastReading month.readings with _ | last
    · simp [selectStep, hm, hl]
    · simp [selectStep, hm, hl]

/-- The electricity component of the product fold does not depend on the
gas accumulator. -/
theorem foldl_select_fst_indep :
    ∀ (ps : List MeterProduct) (e g g' : Option Reading),
      (List.foldl selectStep (e, g) ps).1 = (List.foldl selectStep (e, g') ps).1 := by
  intro ps
  induction ps with
  | nil => intro e g g'; rfl
  | cons p t ih =>
    intro e g g'
    simp only [List.foldl_cons]
    rcases h1 : selectStep (e, g) p with ⟨e₁, g₁⟩
    rcases h2 : selectStep (e, g') p with ⟨e₂, g₂⟩
    have he : e₁ = e₂ := by
      have hh := selectStep_fst_indep p e g g'
      rw [h1, h2] at hh
      simpa using hh
    subst he
    exact ih e₁ g₁ g₂

/-- A product whose lowercased type is not `"stroom"` leaves the
electricity accumulator unchanged. -/
theorem selectStep_fst_of_not_stroom (p : MeterProduct) (acc : Option Reading × Option Reading)
    (h : ¬ pyLower p.productType = "stroom") :
    (selectStep acc p).1 = acc.1 := by
  rcases hm : pickMonth p.months with _ | month
  · simp [selectStep, hm]
  · rcases hl : lastReading month.readings with _ | last
    · simp [selectStep, hm, hl]
    · simp [selectStep, hm, hl, h]

/-- A product whose lowercased type is not `"gas"` leaves the gas
accumulator unchanged. -/
theorem selectStep_snd_of_not_gas (p : MeterProduct) (acc : Option Reading × Option Reading)
    (h : ¬ pyLower p.productType = "gas") :
    (selectStep acc p).2 = acc.2 := by
  rcases hm : pickMonth p.months with _ | month
  · simp [selectStep, hm]
  · rcases hl : lastReading month.readings with _ | last
    · simp [selectStep, hm, hl]
    · simp [selectStep, hm, hl, h]

/-- The electricity selection depends only on the `"stroom"`-typed
products. -/
theorem foldl_select_fst_filter :
    ∀ (ps : List MeterProduct) (e g : Option Reading),
      (List.foldl selectStep (e, g) ps).1 =
        (List.foldl selectStep (e, g)
          (ps.filter (fun p => pyLower p.productType == "stroom"))).1 := by
  intro ps
  induction ps with
  | nil => intro e g; rfl
  | cons p t ih =>
    intro e g
    by_cases hs : pyLower p.productType = "stroom"
    · have hb : (pyLower p.productType == "stroom") = true := by simpa using hs
      simp only [List.foldl_cons, List.filter_cons, hb, if_true]
      rcases h1 : selectStep (e, g) p with ⟨e₁, g₁⟩
      exact ih e₁ g₁
    · have hb : (pyLower p.productType == "stroom") = false := by simpa using hs
      simp only [List.foldl_cons, List.filter_cons, hb, Bool.false_eq_true, if_false]
      rcases h1 : selectStep (e, g) p with ⟨e₁, g₁⟩
      have he : e₁ = e := by
        have hh := selectStep_fst_of_not_stroom p (e, g) hs
        rw [h1] at hh
        simpa using hh
      subst he
      exact (foldl_select_fst_indep t e₁ g₁ g).trans (ih e₁ g)

/-- With no `"gas"`-typed product, the gas accumulator is left alone. -/
theorem foldl_select_snd_none :
    ∀ (ps : List MeterProduct) (e g : Option Reading),
      (∀ p ∈ ps, ¬ pyLower p.productType = "gas") →
      (List.foldl selectStep (e, g) ps).2 = g := by
  intro ps
  induction ps with
  | nil => intro e g _; rfl
  | cons p t ih =>
    intro e g h
    have hp : ¬ pyLower p.productType = "gas" := h p (List.mem_cons_self p t)
    have ht : ∀ q ∈ t, ¬ pyLower q.productType = "gas" :=
      fun q hq => h q (List.mem_cons_of_mem p hq)
    simp only [List.foldl_cons]
    rcases h1 : selectStep (e, g) p with ⟨e₁, g₁⟩
    have hg : g₁ = g := by
      have hh := selectStep_snd_of_not_gas p (e, g) hp
      rw [h1] at hh
      simpa using hh
    subst hg
    exact ih e₁ g₁ ht

/-- Inversion for the electricity selection: a selected reading is the
latest reading of the latest nonempty month of some `"stroom"`-typed
product of the payload (or was already in the accumulator). -/
theorem foldl_select_fst_from :
    ∀ (ps : List MeterProduct) (acc : Option Reading × Option Reading) (e : Reading),
      (List.foldl selectStep acc ps).1 = some e →
      acc.1 = some e ∨
        ∃ p ∈ ps, pyLower p.productType = "stroom" ∧
          ∃ m, pickMonth p.months = some m ∧ lastReading m.readings = some e := by
  intro ps
  induction ps with
  | nil => intro acc e h; exact Or.inl h
  | cons p t ih =>
    intro acc e h
    simp only [List.foldl_cons] at h
    rcases ih (selectStep acc p) e h with hacc | ⟨q, hq, hsq, m, hm, hl⟩
    · rcases hmp : pickMonth p.months with _ | month
      · simp [selectStep, hmp] at hacc
        exact Or.inl hacc
      · rcases hlp : lastReading month.readings with _ | last
        · simp [selectStep, hmp, hlp] at hacc
          exact Or.inl hacc
        · by_cases hst : pyLower p.productType = "stroom"
          · simp [selectStep, hmp, hlp, hst] at hacc
            exact Or.inr ⟨p, List.mem_cons_self p t, hst, month, hmp, by rw [hlp, hacc]⟩
          · simp [selectStep, hmp, hlp, hst] at hacc
            exact Or.inl hacc
    · exact Or.inr ⟨q, List.mem_cons_of_mem p hq, hsq, m, hm, hl⟩

/-- Analogous inversion for the gas selection. -/
theorem foldl_select_snd_from :
    ∀ (ps : List MeterProduct) (acc : Option Reading × Option Reading) (g : Reading),
      (List.foldl selectStep acc ps).2 = some g →
      acc.2 = some g ∨
        ∃ p ∈ ps, pyLower p.productType = "gas" ∧
          ∃ m, pickMonth p.months = some m ∧ lastReading m.readings = some g := by
  intro ps
  induction ps with
  | nil => intro acc g h; exact Or.inl h
  | cons p t ih =>
    intro acc g h
    simp only [List.foldl_cons] at h
    rcases ih (selectStep acc p) g h with hacc | ⟨q, hq, hsq, m, hm, hl⟩
    · rcases hmp : pickMonth p.months with _ | month
      · simp [selectStep, hmp] at hacc
        exact Or.inl hacc
      · rcases hlp : lastReading month.readings with _ | last
        · simp [selectStep, hmp, hlp] at hacc
          exact Or.inl hacc
        · by_cases hst : pyLower p.productType = "gas"
          · simp [selectStep, hmp, hlp, hst] at hacc
            exact Or.inr ⟨p, List.mem_cons_self p t, hst, month, hmp, by rw [hlp, hacc]⟩
          · simp [selectStep, hmp, hlp, hst] at hacc
            exact Or.inl hacc
    · exact Or.inr ⟨q, List.mem_cons_of_mem p hq, hsq, m, hm, hl⟩

/-- The month picked by `pickMonth` is a month of the list, has readings,
and its month number dominates every month of the list that has
readings. -/
theorem pickMonth_spec (months : List MeterMonth) (m : MeterMonth)
    (h : pickMonth months = some m) :
    m ∈ months ∧ m.readings ≠ [] ∧
      ∀ m' ∈ months, m'.readings ≠ [] → m'.month ≤ m.month := by
  haveI htot : IsTotal MeterMonth (fun a b => b.month ≤ a.month) :=
    ⟨fun a b => le_total b.month a.month⟩
  haveI htr : IsTrans MeterMonth (fun a b => b.month ≤ a.month) :=
    ⟨fun a b c hab hbc => le_trans hbc hab⟩
  unfold pickMonth sortMonthsDesc at h
  have hsorted : (months.insertionSort (fun a b => b.month ≤ a.month)).Pairwise
      (fun a b => b.month ≤ a.month) :=
    List.sorted_insertionSort _ months
  have hmem : m ∈ months := by
    have := List.mem_of_find?_eq_some h
    exact (List.mem_insertionSort _).mp this
  have hne : m.readings ≠ [] := by
    have := List.find?_some h
    simpa using this
  refine ⟨hmem, hne, ?_⟩
  intro m' hm' hm'ne
  have hm'sorted : m' ∈ months.insertionSort (fun a b => b.month ≤ a.month) :=
    (List.mem_insertionSort _).mpr hm'
  have hp : (fun mm : MeterMonth => !mm.readings.isEmpty) m' = true := by
    simpa using hm'ne
  exact find?_desc_max (fun mm : MeterMonth => mm.month)
    (fun mm => !mm.readings.isEmpty) _ hsorted m h m' hm'sorted hp

/-- The reading picked by `lastReading` is a reading of the list and its
date dominates every reading in the list. -/
theorem lastReading_spec (readings : List Reading) (r : Reading)
    (h : lastReading readings = some r) :
    r ∈ readings ∧ ∀ r' ∈ readings, r'.readingDate ≤ r.readingDate := by
  haveI htot : IsTotal Reading (fun a b => a.readingDate ≤ b.readingDate) :=
    ⟨fun a b => le_total a.readingDate b.readingDate⟩
  haveI htr : IsTrans Reading (fun a b => a.readingDate ≤ b.readingDate) :=
    ⟨fun a b c hab hbc => le_trans hab hbc⟩
  unfold lastReading at h
  have hsorted : (readings.insertionSort
      (fun a b => a.readingDate ≤ b.readingDate)).Pairwise
      (fun a b => a.readingDate ≤ b.readingDate) :=
    List.sorted_insertionSort _ readings
  have hmem : r ∈ readings := by
    have := List.mem_of_getLast?_eq_some h
    exact (List.mem_insertionSort _).mp this
  refine ⟨hmem, ?_⟩
  intro r' hr'
  have hr'sorted : r' ∈ readings.insertionSort (fun a b => a.readingDate ≤ b.readingDate) :=
    (List.mem_insertionSort _).mpr hr'
  exact getLast?_asc_max (fun rr : Reading => rr.readingDate) _ hsorted r h r' hr'sorted

/-- A nonempty reading list always yields a last reading. -/
theorem lastReading_isSome (readings : List Reading) (h : readings ≠ []) :
    (lastReading readings).isSome := by
  unfold lastReading
  rw [List.getLast?_isSome]
  intro hc
  apply h
  have := List.perm_insertionSort (fun a b : Reading => a.readingDate ≤ b.readingDate) readings
  rw [hc] at this
  exact this.symm.eq_nil

@[simp] theorem exBind_ok {α β : Type} (a : α) (f : α → Except PyErr β) :
    (Except.ok a >>= f) = f a := rfl

@[simp] theorem exBind_error {α β : Type} (e : PyErr) (f : α → Except PyErr β) :
    ((Except.error e : Except PyErr α) >>= f) = .error e := rfl

/-- Inversion of a successful electricity write: all four summands are
non-null and the resulting mapping is the explicit seven-key chain. -/
theorem writeElectricity_ok (r : Reading) (res m : ResultMap)
    (h : writeElectricity r res = .ok m) :
    ∃ lo hi rlo rhi,
      r.offPeakConsumption = some lo ∧ r.normalConsumption = some hi ∧
      r.offPeakFeedIn = some rlo ∧ r.normalFeedIn = some rhi ∧
      m = setKey (setKey (setKey (setKey (setKey (setKey (setKey res
            "electricity_consumption_low" (.num lo))
            "electricity_consumption_high" (.num hi))
            "electricity_consumption_total" (.num (lo + hi)))
            "electricity_return_low" (.num rlo))
            "electricity_return_high" (.num rhi))
            "electricity_return_total" (.num (rlo + rhi)))
            "measurement_date_electricity" (.date r.readingDate) := by
  rcases hc1 : r.offPeakConsumption with _ | lo
  · simp [writeElectricity, pyAdd, hc1] at h
  rcases hc2 : r.normalConsumption with _ | hi
  · simp [writeElectricity, pyAdd, hc1, hc2] at h
  rcases hc3 : r.offPeakFeedIn with _ | rlo
  · simp [writeElectricity, pyAdd, hc1, hc2, hc3] at h
  rcases hc4 : r.normalFeedIn with _ | rhi
  · simp [writeElectricity, pyAdd, hc1, hc2, hc3, hc4] at h
  refine ⟨lo, hi, rlo, rhi, rfl, rfl, rfl, rfl, ?_⟩
  simp [writeElectricity, pyAdd, hc1, hc2, hc3, hc4, toVal] at h
  exact h.symm

/-- A null summand among the four electricity sub-values makes the write
raise `TypeError`. -/
theorem writeElectricity_none_typeError (r : Reading) (res : ResultMap)
    (h : r.offPeakConsumption = none ∨ r.normalConsumption = none ∨
         r.offPeakFeedIn = none ∨ r.normalFeedIn = none) :
    writeElectricity r res = .error .typeError := by
  rcases hc1 : r.offPeakConsumption with _ | lo <;>
    rcases hc2 : r.normalConsumption with _ | hi <;>
      rcases hc3 : r.offPeakFeedIn with _ | rlo <;>
        rcases hc4 : r.normalFeedIn with _ | rhi <;>
          simp_all [writeElectricity, pyAdd]

/-- Unfolding of `update_usage_values` once both payloads validate and the
selection is known. -/
theorem update_usage_values_eq (env : Env) (res : ResultMap)
    (prefs : Preferences) (mr : MeterReadings)
    (eOpt gOpt : Option Reading)
    (hpref : Preferences.from_dict (validate_response env.preferencesResp) = .ok prefs)
    (hmet : MeterReadings.from_dict (validate_response env.meterResp) = .ok mr)
    (hsel : selectReadings mr.productTypes = (eOpt, gOpt)) :
    update_usage_values env res =
      (eOpt.elim (Except.ok res) (fun r => writeElectricity r res)) >>=
        (fun res1 => Except.ok (gOpt.elim res1 (fun g => writeGas g res1))) := by
  unfold update_usage_values
  simp only [hpref, hmet, hsel]
  rcases eOpt with _ | r <;> rcases gOpt with _ | g <;>
    simp [Option.elim]

/-- `update_usage_values` returns the result unchanged when the
preferences or the meter payload fails validation. -/
theorem update_usage_values_invalid (env : Env) (res : ResultMap)
    (h : (Preferences.from_dict (validate_response env.preferencesResp)).isOk = false ∨
         (MeterReadings.from_dict (validate_response env.meterResp)).isOk = false) :
    update_usage_values env res = .ok res := by
  unfold update_usage_values
  rcases hp : Preferences.from_dict (validate_response env.preferencesResp) with e | prefs
  · simp [hp]
  rcases hm : MeterReadings.from_dict (validate_response env.meterResp) with e | mr
  · simp [hp, hm]
  exfalso
  rcases h with h | h
  · rw [hp] at h; simp [Except.isOk, Except.toBool] at h
  · rw [hm] at h; simp [Except.isOk, Except.toBool] at h

@[simp] theorem exPure_eq {α : Type} (a : α) :
    (pure a : Except PyErr α) = .ok a := rfl

/-- Inversion of a successful pricing application: the mapping is
`writePrices` of some validated `Rates` payload. -/
theorem apply_pricing_ok (resp : Option RespJ) (res m : ResultMap)
    (h : apply_pricing resp res = .ok m) :
    ∃ rates, m = writePrices rates res := by
  unfold apply_pricing at h
  rcases h1 : pyInKey "huidig" (validate_response resp) with e | b
  · simp only [h1, exBind_error] at h
    exact absurd h (by simp)
  simp only [h1, exBind_ok] at h
  cases b
  · simp only [Bool.false_eq_true, if_false, exPure_eq, exBind_ok] at h
    rcases h2 : Rates.from_dict (validate_response resp) with e | rates
    · simp only [h2, exBind_error] at h
      exact absurd h (by simp)
    · simp only [h2, exBind_ok, Except.ok.injEq] at h
      exact ⟨rates, h.symm⟩
  · simp only [if_true] at h
    rcases h3 : pySubscript (validate_response resp) "huidig" with e | sub
    · simp only [h3, exBind_error] at h
      exact absurd h (by simp)
    · simp only [h3, exBind_ok] at h
      rcases h2 : Rates.from_dict sub with e | rates
      · simp only [h2, exBind_error] at h
        exact absurd h (by simp)
      · simp only [h2, exBind_ok, Except.ok.injEq] at h
        exact ⟨rates, h.symm⟩

/-- Inversion of a successful contract update: the mapping extends the
input only by `writePrices` of some validated `Rates` payload. -/
theorem update_contract_values_ok (env : Env) (res m : ResultMap)
    (h : update_contract_values env res = .ok m) :
    ∃ rates, m = writePrices rates res := by
  unfold update_contract_values at h
  rcases hd : contract_details_phase env with e | ids
  · simp only [hd, exBind_error] at h
    exact absurd h (by simp)
  simp only [hd, exBind_ok] at h
  unfold pricing_phase at h
  rcases hr : env.ratesResp with _ | r
  · simp only [hr, exBind_error] at h
    exact absurd h (by simp)
  simp only [hr, exBind_ok] at h
  exact apply_pricing_ok _ res m h

/-- `writePrices` leaves every key other than the five price keys
untouched. -/
theorem writePrices_getKey_other (rates : Rates) (m : ResultMap) (k : String)
    (h1 : k ≠ "electricity_price_single") (h2 : k ≠ "electricity_price_low")
    (h3 : k ≠ "electricity_price_high") (h4 : k ≠ "electricity_return_price")
    (h5 : k ≠ "gas_price") :
    getKey (writePrices rates m) k = getKey m k := by
  unfold writePrices
  rcases rates.stroom with _ | st <;> rcases rates.gas with _ | g <;>
    simp [getKey_setKey_other, h1, h2, h3, h4, h5]

/-- Every frame of `request` records exactly one `attempt` event. -/
theorem requestFrame_count_attempt (net : Net) (st : NetState) :
    ((requestFrame net st).2.2).count Ev.attempt = 1 := by
  unfold requestFrame
  by_cases h1 : sessionExpired (net.resp st.sendCount) = true
  · by_cases h2 : net.loginOk st.loginCount = true
    · simp [h1, h2, List.count_cons]
    · simp [h1, h2, List.count_cons]
  · simp [h1, List.count_cons]

/-- The retry recursion runs at most `retry + 1` frames. -/
theorem requestAux_count_attempt (net : Net) :
    ∀ (retry : ℕ) (st : NetState),
      ((requestAux net retry st).2.2).count Ev.attempt ≤ retry + 1 := by
  intro retry
  induction retry with
  | zero =>
    intro st
    unfold requestAux
    rcases hf : requestFrame net st with ⟨out, st', evs⟩
    have hcnt : evs.count Ev.attempt = 1 := by
      have := requestFrame_count_attempt net st
      rw [hf] at this
      exact this
    cases out <;> simp [hcnt]
  | succ n ih =>
    intro st
    unfold requestAux
    rcases hf : requestFrame net st with ⟨out, st', evs⟩
    have hcnt : evs.count Ev.attempt = 1 := by
      have := requestFrame_count_attempt net st
      rw [hf] at this
      exact this
    cases out with
    | done r => simp [hcnt]
    | httpError =>
      simp only [List.count_append, hcnt]
      have := ih st'
      omega

/-! ## Concrete test fixtures

Closed payloads mirroring the repository's test fixtures (an electricity
product with two months and a gas product, customer 2222, agreement 1111),
used by the witness theorems below. -/

/-- An electricity reading payload. -/
def readingEJson (d : ℤ) (nc opc nf opf : ℚ) : JsonVal :=
  .obj [("readingDate", .date d), ("normalConsumption", .num nc),
        ("offPeakConsumption", .num opc), ("normalFeedIn", .num nf),
        ("offPeakFeedIn", .num opf), ("gas", .null)]

/-- A gas reading payload. -/
def readingGJson (d : ℤ) (g : ℚ) : JsonVal :=
  .obj [("readingDate", .date d), ("normalConsumption", .null),
        ("offPeakConsumption", .null), ("normalFeedIn", .null),
        ("offPeakFeedIn", .null), ("gas", .num g)]

/-- A preferences payload. -/
def prefsJson : JsonVal :=
  .obj [("accountId", .str "acc"),
        ("subject", .obj [("customerNumber", .num 2222),
                          ("LeveringsStatus", .num 1),
                          ("agreementId", .num 1111)])]

/-- A meter-readings payload: electricity months 4 and 5, gas month 5. -/
def meterJson : JsonVal :=
  .obj [("productTypes", .arr [
    .obj [("productType", .str "Stroom"),
          ("months", .arr [
            .obj [("month", .num 4),
                  ("readings", .arr [readingEJson 20220406 1 2 3 4])],
            .obj [("month", .num 5),
                  ("readings", .arr [readingEJson 20220506 50000 60000 5000 6000])]])],
    .obj [("productType", .str "Gas"),
          ("months", .arr [
            .obj [("month", .num 5),
                  ("readings", .arr [readingGJson 20220506 10000])]])]])]

/-- An electricity tariff payload. -/
def elecTariffJson : JsonVal :=
  .obj [("leveringHoog", .num 1), ("leveringLaag", .num 2), ("leveringEnkel", .num 3),
        ("leveringLaagAllIn", .num (1/5)), ("leveringHoogAllIn", .num (3/10)),
        ("leveringEnkelAllIn", .num (1/4)),
        ("leveringHoogBtw", .num 4), ("leveringLaagBtw", .num 5), ("leveringEnkelBtw", .num 6),
        ("soortMeter", .str "slim"), ("terugLeveringEnkel", .num 7),
        ("terugLeveringHoog", .num 8), ("terugLeveringLaag", .num 9),
        ("terugleverVergoeding", .num (2/25)), ("terugleverKostenIncBtw", .num 10),
        ("terugleverKostenExcBtw", .num 11), ("terugleverKostenBtw", .num 12),
        ("btw", .num 13), ("btwPercentage", .num 21),
        ("vastrechtPerDagExcBtw", .num 14), ("vastrechtPerDagIncBtw", .num 15),
        ("vastrechtPerDagBtw", .num 16), ("netbeheerPerDagExcBtw", .num 17),
        ("netbeheerPerDagIncBtw", .num 18), ("netbeheerPerDagBtw", .num 19),
        ("reb", .num 20), ("sde", .num 21), ("capaciteit", .null)]

/-- A gas tariff payload. -/
def gasTariffJson : JsonVal :=
  .obj [("levering", .num 1), ("leveringAllIn", .num (4/5)), ("leveringBtw", .num 2),
        ("btw", .num 3), ("btwPercentage", .num 21),
        ("vastrechtPerDagExcBtw", .num 4), ("vastrechtPerDagIncBtw", .num 5),
        ("vastrechtPerDagBtw", .num 6), ("netbeheerPerDagExcBtw", .num 7),
        ("netbeheerPerDagIncBtw", .num 8), ("netbeheerPerDagBtw", .num 9),
        ("reb", .num 10), ("sde", .num 11), ("capaciteit", .str "G4")]

/-- A rates payload with both tariffs. -/
def ratesJson : JsonVal :=
  .obj [("beginDatum", .date 0), ("eindDatum", .date 1),
        ("stroom", elecTariffJson), ("gas", gasTariffJson)]

/-- A microbus-init payload with the preferred contract and one address. -/
def initJson : JsonVal :=
  .obj [("profile", .obj [("voorkeursOvereenkomst",
           .obj [("klantnummer", .num 2222), ("overeenkomstId", .num 1111)])]),
        ("klantgegevens", .arr [
          .obj [("klantnummer", .num 2222),
                ("adressen", .arr [
                  .obj [("klantnummer", .num 2222), ("overeenkomstId", .num 1111),
                        ("huisnummer", .num 1), ("postcode", .str "1234AB"),
                        ("contracten", .arr [
                          .obj [("marktsegment", .str "E"), ("refId", .num 12345)],
                          .obj [("marktsegment", .str "G"), ("refId", .num 54321)]])]])]])]

/-- The fully healthy environment. -/
def goodEnv : Env :=
  { preferencesResp := some { status_code := 200, body := some prefsJson },
    meterResp := some { status_code := 200, body := some meterJson },
    initResp := some { status_code := 200, body := some initJson },
    ratesResp := some { status_code := 200, body := some ratesJson },
    tariffsResp := none }

/-- The selected electricity reading of `meterJson` (month 5). -/
def elecReadingVal : Reading :=
  { readingDate := 20220506, normalConsumption := some 50000,
    offPeakConsumption := some 60000, normalFeedIn := some 5000,
    offPeakFeedIn := some 6000, gas := none }

/-- The selected gas reading of `meterJson` (month 5). -/
def gasReadingVal : Reading :=
  { readingDate := 20220506, normalConsumption := none,
    offPeakConsumption := none, normalFeedIn := none,
    offPeakFeedIn := none, gas := some 10000 }

/-- The parsed preferences of `prefsJson`. -/
def prefsVal : Preferences :=
  { accountId := "acc",
    subject := { customerNumber := 2222, LeveringsStatus := 1, agreementId := 1111 } }

/-- The parsed meter readings of `meterJson`. -/
def meterVal : MeterReadings :=
  { productTypes := [
      { productType := "Stroom",
        months := [
          { month := 4,
            readings := [{ readingDate := 20220406, normalConsumption := some 1,
                           offPeakConsumption := some 2, normalFeedIn := some 3,
                           offPeakFeedIn := some 4, gas := none }] },
          { month := 5, readings := [elecReadingVal] }] },
      { productType := "Gas",
        months := [{ month := 5, readings := [gasReadingVal] }] }] }

/-- The parsed rates of `ratesJson`. -/
def ratesVal : Rates :=
  { beginDatum := 0, eindDatum := 1,
    stroom := some
      { leveringHoog := 1, leveringLaag := 2, leveringEnkel := 3,
        leveringLaagAllIn := 1/5, leveringHoogAllIn := 3/10, leveringEnkelAllIn := 1/4,
        leveringHoogBtw := 4, leveringLaagBtw := 5, leveringEnkelBtw := 6,
        soortMeter := "slim", rebTeruggaveIncBtw := none,
        terugLeveringEnkel := 7, terugLeveringHoog := 8, terugLeveringLaag := 9,
        terugleverVergoeding := 2/25, terugleverKostenIncBtw := 10,
        terugleverKostenExcBtw := 11, terugleverKostenBtw := 12,
        btw := 13, btwPercentage := 21,
        vastrechtPerDagExcBtw := 14, vastrechtPerDagIncBtw := 15,
        vastrechtPerDagBtw := 16, netbeheerPerDagExcBtw := 17,
        netbeheerPerDagIncBtw := 18, netbeheerPerDagBtw := 19,
        reb := 20, sde := 21, capaciteit := none },
    gas := some
      { levering := 1, leveringAllIn := 4/5, leveringBtw := 2, btw := 3,
        btwPercentage := 21, vastrechtPerDagExcBtw := 4, vastrechtPerDagIncBtw := 5,
        vastrechtPerDagBtw := 6, netbeheerPerDagExcBtw := 7,
        netbeheerPerDagIncBtw := 8, netbeheerPerDagBtw := 9,
        reb := 10, sde := 11, capaciteit := some "G4" } }

/-- `goodEnv` with a garbled (non-JSON) preferences body. -/
def envPrefInvalid : Env :=
  { goodEnv with preferencesResp := some { status_code := 200, body := none } }

/-- `goodEnv` with a garbled (non-JSON) microbus-init body. -/
def envInitGarbled : Env :=
  { goodEnv with initResp := some { status_code := 200, body := none } }

/-- `goodEnv` with the rates endpoint answering 404 and the legacy
tariffs endpoint carrying the pricing under a `"huidig"` wrapper. -/
def envRates404 : Env :=
  { goodEnv with
      ratesResp := some { status_code := 404, body := some (.obj [("status", .num 404)]) },
      tariffsResp := some { status_code := 200, body := some (.obj [("huidig", ratesJson)]) } }

/-- A meter payload whose selected electricity reading has a null
`normalConsumption`. -/
def meterNullJson : JsonVal :=
  .obj [("productTypes", .arr [
    .obj [("productType", .str "Stroom"),
          ("months", .arr [
            .obj [("month", .num 5),
                  ("readings", .arr [
                    .obj [("readingDate", .date 20220506),
                          ("normalConsumption", .null),
                          ("offPeakConsumption", .num 60000),
                          ("normalFeedIn", .num 5000),
                          ("offPeakFeedIn", .num 6000), ("gas", .null)]])]])]])]

/-- The selected reading of `meterNullJson`. -/
def nullReadingVal : Reading :=
  { readingDate := 20220506, normalConsumption := none,
    offPeakConsumption := some 60000, normalFeedIn := some 5000,
    offPeakFeedIn := some 6000, gas := none }

/-- The single electricity product of `meterNullJson`. -/
def stroomNullProduct : MeterProduct :=
  { productType := "Stroom",
    months := [{ month := 5, readings := [nullReadingVal] }] }

/-- The parsed meter readings of `meterNullJson`. -/
def meterNullVal : MeterReadings :=
  { productTypes := [stroomNullProduct] }

/-- `goodEnv` with the null-holding meter payload. -/
def envNullReading : Env :=
  { goodEnv with meterResp := some { status_code := 200, body := some meterNullJson } }

/-! ## Claims -/

/-- C5: every `update()` call rebuilds the result mapping from scratch:
the outcome is independent of the object's previous result state, and the
mapping returned (and stored) is exactly the one computed by the current
call's fetches starting from the empty dict. -/
theorem update_rebuilds_from_scratch (env : Env) (s₁ s₂ : ApiState) :
    updateS s₁ env = updateS s₂ env ∧
    updateS s₁ env = (update env).map (fun res => (res, { result := res })) := by
  constructor
  · rfl
  · unfold updateS
    cases update env <;> rfl

/-- C9: `request` always terminates: the retry counter starts at 2 and
strictly decreases, so at most three attempts (frames) run in total; a
frame whose `raise_for_status` fails with the counter exhausted returns
`None`; and on a transport that always answers 500, the call returns
`None` after exactly three attempts. -/
theorem request_terminates_bounded (net : Net) :
    ((request net).2.2).count Ev.attempt ≤ 3 ∧
    (∀ st st' evs, requestFrame net st = (.httpError, st', evs) →
      requestAux net 0 st = (none, st', evs)) ∧
    ((∀ i, net.resp i = { history := [], status_code := 500 }) →
      (request net).1 = none ∧ ((request net).2.2).count Ev.attempt = 3) := by
  refine ⟨requestAux_count_attempt net 2 _, ?_, ?_⟩
  · intro st st' evs h
    unfold requestAux
    rw [h]
  · intro h
    rcases net with ⟨resp, loginOk⟩
    have hresp : resp = fun _ => { history := [], status_code := 500 } :=
      funext fun i => h i
    subst hresp
    exact ⟨rfl, rfl⟩

/-- The transport for the C9 witness: every response is a plain 500. -/
def net500 : Net :=
  { resp := fun _ => { history := [], status_code := 500 },
    loginOk := fun _ => true }

/-- Witness for C9: on the all-500 transport the call returns `None`
after exactly three attempts. -/
theorem request_terminates_bounded_witness :
    (request net500).1 = none ∧ ((request net500).2.2).count Ev.attempt = 3 :=
  (request_terminates_bounded net500).2.2 (fun _ => rfl)

/-- C2: when the first response of a `request` call shows an expired
session (a 302 history entry whose `Location` points at the identity
provider's authorize endpoint, or a 403 final status) and the re-login
succeeds, the call performs exactly one `_activate_session` and exactly
one replay of the original request — two sends in total — and the
replayed response is never re-examined for expiry. -/
theorem request_expired_single_refresh (net : Net)
    (h1 : sessionExpired (net.resp 0) = true)
    (h2 : net.loginOk 0 = true)
    (h3 : (net.resp 1).status_code = 404 ∨ (net.resp 1).status_code < 400) :
    request net = (some (net.resp 1), { sendCount := 2, loginCount := 1 },
      [.attempt, .send, .relogin, .send]) ∧
    ((request net).2.2).count Ev.relogin = 1 ∧
    ((request net).2.2).count Ev.send = 2 := by
  have hframe : requestFrame net { sendCount := 0, loginCount := 0 } =
      (finishResp (net.resp 1), { sendCount := 2, loginCount := 1 },
        [.attempt, .send, .relogin, .send]) := by
    unfold requestFrame
    simp [h1, h2]
  have hfin : finishResp (net.resp 1) = .done (some (net.resp 1)) := by
    unfold finishResp
    rcases h3 with h3 | h3
    · simp [h3]
    · have hne : ((net.resp 1).status_code == 404) = false := by
        simp
        omega
      have hnn : ¬ 400 ≤ (net.resp 1).status_code := by omega
      simp [hne, hnn]
  have hmain : request net = (some (net.resp 1),
      { sendCount := 2, loginCount := 1 }, [.attempt, .send, .relogin, .send]) := by
    unfold request requestAux
    rw [hframe, hfin]
  refine ⟨hmain, ?_, ?_⟩ <;> rw [hmain] <;> rfl

/-- The transport for the C2 witness: the first response carries a 302
redirect to the authorize endpoint in its history, later responses are
plain 200s, and re-login succeeds. -/
def netExpired : Net :=
  { resp := fun i =>
      if i = 0 then
        { history :=
            [⟨302, some "https://sso.greenchoice.nl/connect/authorize?client_id=x"⟩],
          status_code := 200 }
      else { history := [], status_code := 200 },
    loginOk := fun _ => true }

/-- Witness for C2: the expired-session transport triggers exactly one
re-login and one replay. -/
theorem request_expired_single_refresh_witness :
    sessionExpired (netExpired.resp 0) = true ∧
    request netExpired = (some (netExpired.resp 1),
      { sendCount := 2, loginCount := 1 }, [.attempt, .send, .relogin, .send]) :=
  ⟨by rfl,
   (request_expired_single_refresh netExpired (by rfl) (by rfl)
     (Or.inr (by decide))).1⟩

/-- C1 counterexample: a garbled microbus-init JSON body (one of the
failure kinds the claim enumerates) makes `update()` raise an uncaught
`AttributeError` (`init_config.get("profile")` is `None`, and
`None.get(...)` raises) instead of returning with keys omitted. -/
theorem update_raises_on_garbled_init :
    update envInitGarbled = .error .attributeError := by rfl

/-- C1 (amended): failures confined to the preferences or meter-readings
payloads are indeed swallowed — the cycle behaves exactly as if only the
contract fetch ran, and no usage key can appear in the returned mapping —
but (per the counterexample) failures in the microbus-init/rates/tariffs
path escalate out of `update()` as exceptions. -/
theorem update_usage_failures_degrade (env : Env)
    (h : (Preferences.from_dict (validate_response env.preferencesResp)).isOk = false ∨
         (MeterReadings.from_dict (validate_response env.meterResp)).isOk = false) :
    update env = update_contract_values env [] ∧
    ∀ m, update env = .ok m →
      getKey m "electricity_consumption_low" = none ∧
      getKey m "electricity_consumption_high" = none ∧
      getKey m "electricity_consumption_total" = none ∧
      getKey m "electricity_return_low" = none ∧
      getKey m "electricity_return_high" = none ∧
      getKey m "electricity_return_total" = none ∧
      getKey m "measurement_date_electricity" = none ∧
      getKey m "gas_consumption" = none ∧
      getKey m "measurement_date_gas" = none := by
  have hupd : update env = update_contract_values env [] := by
    unfold update
    simp only [update_usage_values_invalid env [] h, exBind_ok]
  refine ⟨hupd, ?_⟩
  intro m hm
  rw [hupd] at hm
  rcases update_contract_values_ok env [] m hm with ⟨rates, rfl⟩
  refine ⟨?_, ?_, ?_, ?_, ?_, ?_, ?_, ?_, ?_⟩ <;>
    first
      | (rw [writePrices_getKey_other] <;> first | rfl | decide)

/-- Witness for the amended C1: a garbled preferences body on an
otherwise healthy environment leaves `update` equal to the pure contract
path, which succeeds with only the price keys. -/
theorem update_usage_failures_degrade_witness :
    (Preferences.from_dict (validate_response envPrefInvalid.preferencesResp)).isOk
        = false ∧
    update envPrefInvalid = update_contract_values envPrefInvalid [] ∧
    (update envPrefInvalid).isOk = true :=
  ⟨by rfl,
   (update_usage_failures_degrade envPrefInvalid (Or.inl (by rfl))).1,
   by rfl⟩

/-- C3: for every meter payload and each product type, the selected
reading comes from a `"stroom"`/`"gas"`-typed product, from the month
with the greatest month key among months that contain at least one
reading (the payload is per-year, so the month number is the (year,
month) key), and within that month it is a reading with the latest
`readingDate`.  The reported values come only from this reading (their
equations are the subject of C6). -/
theorem usage_selects_latest_reading (products : List MeterProduct)
    (eOpt gOpt : Option Reading)
    (hsel : selectReadings products = (eOpt, gOpt)) :
    (∀ e, eOpt = some e →
      ∃ p ∈ products, pyLower p.productType = "stroom" ∧
        ∃ m, pickMonth p.months = some m ∧ m ∈ p.months ∧ m.readings ≠ [] ∧
          (∀ m' ∈ p.months, m'.readings ≠ [] → m'.month ≤ m.month) ∧
          lastReading m.readings = some e ∧ e ∈ m.readings ∧
          (∀ r' ∈ m.readings, r'.readingDate ≤ e.readingDate)) ∧
    (∀ g, gOpt = some g →
      ∃ p ∈ products, pyLower p.productType = "gas" ∧
        ∃ m, pickMonth p.months = some m ∧ m ∈ p.months ∧ m.readings ≠ [] ∧
          (∀ m' ∈ p.months, m'.readings ≠ [] → m'.month ≤ m.month) ∧
          lastReading m.readings = some g ∧ g ∈ m.readings ∧
          (∀ r' ∈ m.readings, r'.readingDate ≤ g.readingDate)) := by
  constructor
  · intro e he
    have h1 : (selectReadings products).1 = some e := by rw [hsel, he]
    rcases foldl_select_fst_from products (none, none) e h1 with hc | ⟨p, hp, hst, m, hm, hl⟩
    · cases hc
    rcases pickMonth_spec p.months m hm with ⟨hmem, hne, hmax⟩
    rcases lastReading_spec m.readings e hl with ⟨hrmem, hrmax⟩
    exact ⟨p, hp, hst, m, hm, hmem, hne, hmax, hl, hrmem, hrmax⟩
  · intro g hg
    have h2 : (selectReadings products).2 = some g := by rw [hsel, hg]
    rcases foldl_select_snd_from products (none, none) g h2 with hc | ⟨p, hp, hst, m, hm, hl⟩
    · cases hc
    rcases pickMonth_spec p.months m hm with ⟨hmem, hne, hmax⟩
    rcases lastReading_spec m.readings g hl with ⟨hrmem, hrmax⟩
    exact ⟨p, hp, hst, m, hm, hmem, hne, hmax, hl, hrmem, hrmax⟩

/-- Witness for C3: on the fixture payload the electricity reading of
month 5 and the gas reading of month 5 are selected. -/
theorem usage_selects_latest_reading_witness :
    selectReadings meterVal.productTypes = (some elecReadingVal, some gasReadingVal) ∧
    ∃ p ∈ meterVal.productTypes, pyLower p.productType = "stroom" ∧
      ∃ m, pickMonth p.months = some m ∧ m ∈ p.months ∧ m.readings ≠ [] ∧
        (∀ m' ∈ p.months, m'.readings ≠ [] → m'.month ≤ m.month) ∧
        lastReading m.readings = some elecReadingVal ∧ elecReadingVal ∈ m.readings ∧
        (∀ r' ∈ m.readings, r'.readingDate ≤ elecReadingVal.readingDate) :=
  ⟨by rfl,
   (usage_selects_latest_reading meterVal.productTypes
      (some elecReadingVal) (some gasReadingVal) (by rfl)).1 elecReadingVal rfl⟩

/-- C6: whenever an electricity reading is selected and
`update_usage_values` succeeds, the mapping carries exactly that
reading's four sub-values, the two totals are the sums of the off-peak
(low) and normal (high) sub-values, and each selected product
contributes its own `readingDate` as its measurement date; a selected
gas reading contributes exactly its single `gas` value. -/
theorem usage_totals (env : Env) (prefs : Preferences) (mr : MeterReadings)
    (e : Reading) (gOpt : Option Reading) (m : ResultMap)
    (hpref : Preferences.from_dict (validate_response env.preferencesResp) = .ok prefs)
    (hmet : MeterReadings.from_dict (validate_response env.meterResp) = .ok mr)
    (hsel : selectReadings mr.productTypes = (some e, gOpt))
    (hok : update_usage_values env [] = .ok m) :
    ∃ lo hi rlo rhi,
      e.offPeakConsumption = some lo ∧ e.normalConsumption = some hi ∧
      e.offPeakFeedIn = some rlo ∧ e.normalFeedIn = some rhi ∧
      getKey m "electricity_consumption_low" = some (.num lo) ∧
      getKey m "electricity_consumption_high" = some (.num hi) ∧
      getKey m "electricity_consumption_total" = some (.num (lo + hi)) ∧
      getKey m "electricity_return_low" = some (.num rlo) ∧
      getKey m "electricity_return_high" = some (.num rhi) ∧
      getKey m "electricity_return_total" = some (.num (rlo + rhi)) ∧
      getKey m "measurement_date_electricity" = some (.date e.readingDate) ∧
      (∀ g, gOpt = some g →
        getKey m "gas_consumption" = some (toVal g.gas) ∧
        getKey m "measurement_date_gas" = some (.date g.readingDate)) := by
  rw [update_usage_values_eq env [] prefs mr (some e) gOpt hpref hmet hsel] at hok
  simp only [Option.elim] at hok
  rcases hw : writeElectricity e [] with err | m1
  · rw [hw] at hok
    simp at hok
  rw [hw] at hok
  simp only [exBind_ok, Except.ok.injEq] at hok
  rcases writeElectricity_ok e [] m1 hw with ⟨lo, hi, rlo, rhi, hc1, hc2, hc3, hc4, hm1⟩
  refine ⟨lo, hi, rlo, rhi, hc1, hc2, hc3, hc4, ?_⟩
  have hgk : ∀ k, k ≠ "gas_consumption" → k ≠ "measurement_date_gas" →
      getKey m k = getKey m1 k := by
    intro k hk1 hk2
    rcases gOpt with _ | g
    · simp only [Option.elim] at hok
      rw [← hok]
    · simp only [Option.elim] at hok
      rw [← hok]
      unfold writeGas
      rw [getKey_setKey_other _ _ _ _ hk2, getKey_setKey_other _ _ _ _ hk1]
  have helec : ∀ (k : String) (v : Value),
      getKey m1 k = v → k ≠ "gas_consumption" → k ≠ "measurement_date_gas" →
      getKey m k = v := by
    intro k v hv hk1 hk2
    rw [hgk k hk1 hk2]
    exact hv
  subst hm1
  refine ⟨?_, ?_, ?_, ?_, ?_, ?_, ?_, ?_⟩
  · exact helec _ _ (by simp [getKey_setKey_other, getKey_setKey_self]) (by decide) (by decide)
  · exact helec _ _ (by simp [getKey_setKey_other, getKey_setKey_self]) (by decide) (by decide)
  · exact helec _ _ (by simp [getKey_setKey_other, getKey_setKey_self]) (by decide) (by decide)
  · exact helec _ _ (by simp [getKey_setKey_other, getKey_setKey_self]) (by decide) (by decide)
  · exact helec _ _ (by simp [getKey_setKey_other, getKey_setKey_self]) (by decide) (by decide)
  · exact helec _ _ (by simp [getKey_setKey_other, getKey_setKey_self]) (by decide) (by decide)
  · exact helec _ _ (by simp [getKey_setKey_other, getKey_setKey_self]) (by decide) (by decide)
  · intro g hg
    subst hg
    simp only [Option.elim] at hok
    rw [← hok]
    unfold writeGas
    constructor
    · rw [getKey_setKey_other _ _ _ _ (by decide), getKey_setKey_self]
    · rw [getKey_setKey_self]

/-- Witness for C6: the fixture mapping satisfies the total equations. -/
theorem usage_totals_witness :
    ∃ m, update_usage_values goodEnv [] = .ok m ∧
      getKey m "electricity_consumption_total" = some (.num (60000 + 50000)) ∧
      getKey m "electricity_return_total" = some (.num (6000 + 5000)) := by
  rcases husage : update_usage_values goodEnv [] with err | m
  · exact absurd husage (by intro hc; rw [show update_usage_values goodEnv [] =
      .ok ((update_usage_values goodEnv []).toOption.getD []) from by rfl] at hc; simp at hc)
  · refine ⟨m, rfl, ?_⟩
    rcases usage_totals goodEnv prefsVal meterVal elecReadingVal (some gasReadingVal) m
        (by rfl) (by rfl) (by rfl) husage with
      ⟨lo, hi, rlo, rhi, hc1, hc2, hc3, hc4, _, _, ht1, _, _, ht2, _, _⟩
    have hlo : lo = 60000 := by
      have : some lo = some (60000 : ℚ) := by rw [← hc1]; rfl
      injection this
    have hhi : hi = 50000 := by
      have : some hi = some (50000 : ℚ) := by rw [← hc2]; rfl
      injection this
    have hrlo : rlo = 6000 := by
      have : some rlo = some (6000 : ℚ) := by rw [← hc3]; rfl
      injection this
    have hrhi : rhi = 5000 := by
      have : some rhi = some (5000 : ℚ) := by rw [← hc4]; rfl
      injection this
    subst hlo hhi hrlo hrhi
    exact ⟨ht1, ht2⟩

/-- C10: if the selected electricity reading carries a null (`None`) in
any of its four sub-values — which the `Reading` model accepts — then the
total computation of `update_usage_values` raises a `TypeError` that no
handler catches, so `update()` itself raises.  The totals branch is only
safe under the unstated precondition that all four sub-values are
non-null. -/
theorem null_reading_raises_type_error (env : Env) (prefs : Preferences)
    (mr : MeterReadings) (e : Reading) (gOpt : Option Reading)
    (hpref : Preferences.from_dict (validate_response env.preferencesResp) = .ok prefs)
    (hmet : MeterReadings.from_dict (validate_response env.meterResp) = .ok mr)
    (hsel : selectReadings mr.productTypes = (some e, gOpt))
    (hnull : e.offPeakConsumption = none ∨ e.normalConsumption = none ∨
             e.offPeakFeedIn = none ∨ e.normalFeedIn = none) :
    update_usage_values env [] = .error .typeError ∧
    update env = .error .typeError := by
  have husage : update_usage_values env [] = .error .typeError := by
    rw [update_usage_values_eq env [] prefs mr (some e) gOpt hpref hmet hsel]
    simp only [Option.elim]
    rw [writeElectricity_none_typeError e [] hnull]
    rfl
  refine ⟨husage, ?_⟩
  unfold update
  simp only [husage, exBind_error]

/-- Witness for C10: a payload whose latest electricity reading has a
null `normalConsumption` makes `update` raise `TypeError`. -/
theorem null_reading_raises_type_error_witness :
    update envNullReading = .error .typeError :=
  (null_reading_raises_type_error envNullReading prefsVal meterNullVal
    nullReadingVal none (by rfl) (by rfl) (by rfl)
    (Or.inr (Or.inl rfl))).2

/-- C7: with no gas data present the gas keys are absent and the
electricity keys are exactly what they would be with gas data present:
the electricity selection depends only on the `"stroom"`-typed products,
no gas product means no gas reading, the electricity write never touches
the two gas usage keys, and a `Rates` payload without a gas tariff
leaves `gas_price` alone while all other keys equal those produced by
the same payload extended with a gas tariff. -/
theorem gas_absence_frame (products : List MeterProduct) (rates : Rates)
    (g : GasTariff) (m : ResultMap) :
    ((selectReadings products).1 =
      (selectReadings (products.filter (fun p => pyLower p.productType == "stroom"))).1) ∧
    ((∀ p ∈ products, ¬ pyLower p.productType = "gas") →
      (selectReadings products).2 = none) ∧
    (∀ r m', writeElectricity r [] = .ok m' →
      getKey m' "gas_consumption" = none ∧ getKey m' "measurement_date_gas" = none) ∧
    (rates.gas = none →
      getKey (writePrices rates m) "gas_price" = getKey m "gas_price" ∧
      ∀ k, k ≠ "gas_price" →
        getKey (writePrices rates m) k =
          getKey (writePrices { rates with gas := some g } m) k) := by
  refine ⟨foldl_select_fst_filter products none none, ?_, ?_, ?_⟩
  · intro h
    exact foldl_select_snd_none products none none h
  · intro r m' hw
    rcases writeElectricity_ok r [] m' hw with ⟨lo, hi, rlo, rhi, _, _, _, _, rfl⟩
    constructor <;>
      simp [getKey_setKey_other, getKey, setKey]
  · intro hgas
    have hstroom : ({ rates with gas := some g } : Rates).stroom = rates.stroom := rfl
    constructor
    · unfold writePrices
      rw [hgas]
      rcases rates.stroom with _ | st
      · rfl
      · rw [getKey_setKey_other _ _ _ _ (by decide),
            getKey_setKey_other _ _ _ _ (by decide),
            getKey_setKey_other _ _ _ _ (by decide),
            getKey_setKey_other _ _ _ _ (by decide)]
    · intro k hk
      unfold writePrices
      rw [hgas, hstroom]
      rcases rates.stroom with _ | st
      · rw [getKey_setKey_other _ _ _ _ hk]
      · rw [getKey_setKey_other _ _ _ _ hk]

/-- A rates value without a gas tariff, for the C7 witness. -/
def ratesNoGas : Rates := { ratesVal with gas := none }

/-- Witness for C7: the gas-free fixture yields no gas reading and no
`gas_price` key. -/
theorem gas_absence_frame_witness :
    (selectReadings meterNullVal.productTypes).2 = none ∧
    getKey (writePrices ratesNoGas []) "gas_price" = none := by
  have h := gas_absence_frame meterNullVal.productTypes ratesNoGas
    { levering := 1, leveringAllIn := 1, leveringBtw := 1, btw := 1,
      btwPercentage := 1, vastrechtPerDagExcBtw := 1, vastrechtPerDagIncBtw := 1,
      vastrechtPerDagBtw := 1, netbeheerPerDagExcBtw := 1, netbeheerPerDagIncBtw := 1,
      netbeheerPerDagBtw := 1, reb := 1, sde := 1, capaciteit := none } []
  refine ⟨h.2.1 ?_, ?_⟩
  · intro p hp
    have hpeq : p = stroomNullProduct := by
      simpa [meterNullVal] using hp
    rw [hpeq]
    decide
  · have h2 := (h.2.2.2 rfl).1
    rw [h2]
    rfl

/-- C4: when the rates endpoint answers 404, the pricing is taken from
the legacy `/api/tariffs` endpoint instead; its `"huidig"` (current
period) sub-object is unwrapped when present, and the same five price
keys are populated from the legacy payload. -/
theorem rates_404_fallback (env : Env) (r tr : RespJ) (body : JsonVal)
    (rates : Rates) (m : ResultMap)
    (h1 : env.ratesResp = some r) (h2 : r.status_code = 404)
    (h3 : env.tariffsResp = some tr) (h4 : tr.status_code < 400)
    (h5 : tr.body = some (.obj [("huidig", body)]))
    (h6 : Rates.from_dict body = .ok rates) :
    pricing_phase env m = apply_pricing env.tariffsResp m ∧
    pricing_phase env m = .ok (writePrices rates m) ∧
    (∀ s, rates.stroom = some s →
      getKey (writePrices rates m) "electricity_price_single"
          = some (.num s.leveringEnkelAllIn) ∧
      getKey (writePrices rates m) "electricity_price_low"
          = some (.num s.leveringLaagAllIn) ∧
      getKey (writePrices rates m) "electricity_price_high"
          = some (.num s.leveringHoogAllIn) ∧
      getKey (writePrices rates m) "electricity_return_price"
          = some (.num s.terugleverVergoeding)) ∧
    (∀ gt, rates.gas = some gt →
      getKey (writePrices rates m) "gas_price" = some (.num gt.leveringAllIn)) := by
  have hphase : pricing_phase env m = apply_pricing env.tariffsResp m := by
    unfold pricing_phase
    simp only [h1, exBind_ok, h2]
    rfl
  have hvr : validate_response env.tariffsResp = .obj [("huidig", body)] := by
    rw [h3]
    unfold validate_response
    have : ¬ 400 ≤ tr.status_code := by omega
    simp [this, h5]
  have happly : apply_pricing env.tariffsResp m = .ok (writePrices rates m) := by
    unfold apply_pricing
    rw [hvr]
    have hin : pyInKey "huidig" (.obj [("huidig", body)]) = .ok true := by
      simp [pyInKey]
    have hsub : pySubscript (.obj [("huidig", body)]) "huidig" = .ok body := by
      simp [pySubscript]
    rw [hin, exBind_ok, if_pos rfl, hsub]
    simp only [exBind_ok, h6]
  refine ⟨hphase, hphase.trans happly, ?_, ?_⟩
  · intro s hs
    unfold writePrices
    rw [hs]
    rcases rates.gas with _ | gt <;>
      refine ⟨?_, ?_, ?_, ?_⟩ <;>
        simp only [] <;>
          first
            | (rw [getKey_setKey_other _ _ _ _ (by decide),
                  getKey_setKey_other _ _ _ _ (by decide),
                  getKey_setKey_other _ _ _ _ (by decide),
                  getKey_setKey_other _ _ _ _ (by decide),
                  getKey_setKey_self])
            | (rw [getKey_setKey_other _ _ _ _ (by decide),
                  getKey_setKey_other _ _ _ _ (by decide),
                  getKey_setKey_other _ _ _ _ (by decide),
                  getKey_setKey_self])
            | (rw [getKey_setKey_other _ _ _ _ (by decide),
                  getKey_setKey_other _ _ _ _ (by decide),
                  getKey_setKey_self])
            | (rw [getKey_setKey_other _ _ _ _ (by decide),
                  getKey_setKey_self])
            | rw [getKey_setKey_self]
  · intro gt hgt
    unfold writePrices
    rw [hgt]
    rcases rates.stroom with _ | st <;> rw [getKey_setKey_self]

/-- Witness for C4: on the 404-rates environment, the pricing comes from
the wrapped legacy payload and carries its price keys. -/
theorem rates_404_fallback_witness :
    pricing_phase envRates404 [] = .ok (writePrices ratesVal []) ∧
    getKey (writePrices ratesVal []) "gas_price" = some (.num (4/5)) := by
  have h := rates_404_fallback envRates404
    { status_code := 404, body := some (.obj [("status", .num 404)]) }
    { status_code := 200, body := some (.obj [("huidig", ratesJson)]) }
    ratesJson ratesVal []
    rfl rfl rfl (by decide) rfl (by rfl)
  refine ⟨h.2.1, ?_⟩
  have := h.2.2.2 (ratesVal.gas.getD
    { levering := 1, leveringAllIn := 4/5, leveringBtw := 2, btw := 3,
      btwPercentage := 21, vastrechtPerDagExcBtw := 4, vastrechtPerDagIncBtw := 5,
      vastrechtPerDagBtw := 6, netbeheerPerDagExcBtw := 7,
      netbeheerPerDagIncBtw := 8, netbeheerPerDagBtw := 9,
      reb := 10, sde := 11, capaciteit := some "G4" }) (by rfl)
  simpa using this

/-- C8: once the handshake reaches the post-credentials page (the
anti-forgery token extraction succeeded), a `LoginError` is signalled if
and only if at least one of the four hidden OIDC input elements (`code`,
`scope`, `state`, `session_state`) is missing from that page's HTML; and
whenever all four are extracted, the handshake proceeds and posts
exactly those parameters to the `/signin-oidc` callback endpoint. -/
theorem login_error_iff_missing_oidc_field (env : LoginEnv) (tv : Option String)
    (htok : get_verification_token env.loginPageInputs = .ok tv) :
    (activate_session env = .error .loginError ↔
      (findInput env.authPageInputs "code" = none ∨
       findInput env.authPageInputs "scope" = none ∨
       findInput env.authPageInputs "state" = none ∨
       findInput env.authPageInputs "session_state" = none)) ∧
    (∀ p, get_oidc_params env.authPageInputs = .ok p →
      activate_session env =
        .ok [.getLoginPage, .postCredentials, .postSigninOidc p]) := by
  have hact : activate_session env =
      get_oidc_params env.authPageInputs >>= (fun oidc =>
        .ok [LoginEv.getLoginPage, .postCredentials, .postSigninOidc oidc]) := by
    unfold activate_session
    rw [htok, exBind_ok]
  constructor
  · rw [hact]
    rcases hc : findInput env.authPageInputs "code" with _ | ce <;>
      rcases hs : findInput env.authPageInputs "scope" with _ | se <;>
        rcases hst : findInput env.authPageInputs "state" with _ | ste <;>
          rcases hss : findInput env.authPageInputs "session_state" with _ | sse <;>
            simp [get_oidc_params, hc, hs, hst, hss]
    rcases hv : se.value with _ | v <;> simp [hv]
  · intro p hp
    rw [hact, hp, exBind_ok]

/-- The login pages for the C8 witness: a token on the login page and all
four OIDC fields on the post-credentials page. -/
def loginEnvAllFields : LoginEnv :=
  { loginPageInputs := [⟨"__RequestVerificationToken", some "tok"⟩],
    authPageInputs := [⟨"code", some "c1"⟩, ⟨"scope", some "openid profile"⟩,
                       ⟨"state", some "st1"⟩, ⟨"session_state", some "ss1"⟩] }

/-- Witness for C8: with all four fields present the handshake posts the
extracted parameters (spaces in `scope` replaced by `+`). -/
theorem login_error_iff_missing_oidc_field_witness :
    activate_session loginEnvAllFields =
      .ok [.getLoginPage, .postCredentials, .postSigninOidc
        { code := some "c1", scope := "openid+profile",
          oidcState := some "st1", session_state := some "ss1" }] :=
  (login_error_iff_missing_oidc_field loginEnvAllFields (some "tok") (by rfl)).2
    { code := some "c1", scope := "openid+profile",
      oidcState := some "st1", session_state := some "ss1" } (by rfl)

end Greenchoice
